import Mathlib

/-!
Shallow embedding of `src/m64py/frontend/mainwindow.py` (class `MainWindow`),
the main-window controller of the M64Py emulator front-end.

Each handler of the Python class is modelled as a pure Lean function.  GUI
side effects (worker calls, dialogs, signal emissions) are reified as values
of the `Effect` type; the transient window state the handlers read and write
(checked/enabled flags, fullscreen bit, counters) is the record
`MainWindowState`.  The emulator states come from the mupen64plus API
(`M64EMU_STOPPED`, `M64EMU_RUNNING`, `M64EMU_PAUSED`); they are modelled by
the inductive `EmuState`.
-/

namespace M64Py

/-- Emulator execution states used by the window code
(`M64EMU_STOPPED`, `M64EMU_RUNNING`, `M64EMU_PAUSED` from `m64py.core.defs`). -/
inductive EmuState
  | stopped
  | running
  | paused
  deriving DecidableEq, Repr

/-- Cursor shapes the window sets on the GL widget. -/
inductive CursorShape
  | arrow
  | blank
  deriving DecidableEq, Repr

/-- Calls the window makes against the injected worker object. -/
inductive WorkerCall
  | core_state_query
  | stop
  | set_filepath (fp : String) (fn : Option String)
  | start
  | state_load
  | state_save
  | save_screenshot
  | toggle_pause
  | toggle_mute
  | reset (soft : Bool)
  | toggle_speed_limit
  | speed_down
  | speed_up
  | state_set_slot (s : Nat)
  | send_sdl_keydown (k : Nat)
  | send_sdl_keyup (k : Nat)
  | toggle_actions
  deriving DecidableEq, Repr, Inhabited

/-- Observable effects of a handler: worker calls, the missing-file info
dialog, the `toggle_fs` signal emission, the `window_size_triggered` update
and raising the window. -/
inductive Effect
  | worker (c : WorkerCall)
  | infoDialog (msg : String)
  | emit_toggle_fs
  | windowSizeUpdate
  | raiseWindow
  deriving DecidableEq, Repr

/-- Transient state of the main window that the modelled handlers touch:
the two private flags set in `__init__`, the central-stack index, the
check state of the Mute/Pause/LimitFPS actions, caption and status-bar
text, presence of the cheats dialog, the vidext setting, and the
fullscreen flag with menubar/statusbar visibility and GL-widget cursor. -/
structure MainWindowState where
  isInit : Bool
  attemptCount : Nat
  stackIndex : Nat
  muteChecked : Bool
  pauseChecked : Bool
  limitFPSChecked : Bool
  caption : String
  status : String
  cheatsPresent : Bool
  vidext : Bool
  fullscreen : Bool
  menubarVisible : Bool
  statusbarVisible : Bool
  cursor : CursorShape
  deriving DecidableEq, Repr

/-- State established by `MainWindow.__init__`: `_initialized = False`,
`_initialize_attempt = 0`, the central stack shows index 0 (`create_widgets`),
`self.cheats = None`, and the window starts windowed with menubar and
statusbar visible.  The check states of the Mute/Pause/LimitFPS actions and
the caption come from the generated `setupUi` (idle defaults). -/
def init_state (vidext : Bool) : MainWindowState :=
  { isInit := false
    attemptCount := 0
    stackIndex := 0
    muteChecked := false
    pauseChecked := false
    limitFPSChecked := true
    caption := "M64Py"
    status := "M64Py version."
    cheatsPresent := false
    vidext := vidext
    fullscreen := false
    menubarVisible := true
    statusbarVisible := true
    cursor := CursorShape.arrow }

/-- Result of one run of the `wait_for_initialize` poll: the new value of
`_initialize_attempt`, whether a new `QTimer.singleShot` was scheduled, and
the effects performed. -/
structure PollStep where
  attempt : Nat
  reschedule : Bool
  effects : List Effect
  deriving DecidableEq, Repr

/-- One run of `MainWindow.wait_for_initialize`, as a function of the result
`q` of `core_state_query(M64CORE_EMU_STATE)` and the current value of
`_initialize_attempt`.  If `q` is stopped the counter is incremented and the
timer is rescheduled only while the incremented counter is below 10;
otherwise `window_size_triggered` and `worker.toggle_actions` run. -/
def wait_for_init (q : EmuState) (attempt : Nat) : PollStep :=
  if q = EmuState.stopped then
    { attempt := attempt + 1
      reschedule := decide (attempt + 1 < 10)
      effects := [Effect.worker WorkerCall.core_state_query] }
  else
    { attempt := attempt
      reschedule := false
      effects := [Effect.worker WorkerCall.core_state_query,
                  Effect.windowSizeUpdate,
                  Effect.worker WorkerCall.toggle_actions] }

/-- Number of times `wait_for_initialize` runs, starting from poll index `i`
with counter value `attempt`, when the `i`-th poll's `core_state_query`
returns `queries i`: the run itself, plus the runs of the rescheduled timer.
Mirrors the reschedule condition of `wait_for_init`. -/
def pollRuns (queries : Nat → EmuState) (i attempt : Nat) : Nat :=
  if queries i = EmuState.stopped then
    if h : attempt + 1 < 10 then 1 + pollRuns queries (i + 1) (attempt + 1) else 1
  else 1
termination_by 10 - attempt
decreasing_by omega

/-- `MainWindow.on_toggle_fs`: when currently fullscreen, show the menubar
and statusbar and restore the arrow cursor; otherwise hide them and blank
the cursor; then XOR the `WindowFullScreen` bit of the window state. -/
def on_toggle_fs (w : MainWindowState) : MainWindowState :=
  if w.fullscreen then
    { w with menubarVisible := true
             statusbarVisible := true
             cursor := CursorShape.arrow
             fullscreen := !w.fullscreen }
  else
    { w with menubarVisible := false
             statusbarVisible := false
             cursor := CursorShape.blank
             fullscreen := !w.fullscreen }

/-- `MainWindow.on_rom_closed`: if vidext is on and the window is fullscreen
the `toggle_fs` signal is emitted (directly invoking `on_toggle_fs`); then
the stack shows index 0, Mute and Pause are unchecked, LimitFPS is checked,
the caption becomes "M64Py", the status bar reads "ROM closed.", the cheats
dialog is dropped and `_initialized` is cleared. -/
def on_rom_closed (w : MainWindowState) : MainWindowState :=
  let w1 := if w.vidext ∧ w.fullscreen then on_toggle_fs w else w
  { w1 with stackIndex := 0
            muteChecked := false
            pauseChecked := false
            limitFPSChecked := true
            caption := "M64Py"
            status := "ROM closed."
            cheatsPresent := false
            isInit := false }

/-- `MainWindow.on_file_open`, as the list of effects it performs.
`fileExists` is `os.path.isfile(filepath)`; `workerState` is the worker
state read after the initial `core_state_query`.  On a missing file only the
info dialog is shown; otherwise the worker is queried, stopped if running or
paused, given the filepath, and started, and the window is raised. -/
def on_file_open (fileExists : Bool) (filepath : String) (filename : Option String)
    (workerState : EmuState) : List Effect :=
  if !fileExists then
    [Effect.infoDialog ("File " ++ filepath ++ " not found.")]
  else
    [Effect.worker WorkerCall.core_state_query] ++
    (if workerState = EmuState.running ∨ workerState = EmuState.paused
      then [Effect.worker WorkerCall.stop] else []) ++
    [Effect.worker (WorkerCall.set_filepath filepath filename),
     Effect.worker WorkerCall.start,
     Effect.raiseWindow]

/-- Enabled/disabled state of every control touched by
`MainWindow.on_state_changed`. -/
structure Enabled where
  menuLoad : Bool
  menuRecent : Bool
  menuStateSlot : Bool
  actionLoadState : Bool
  actionSaveState : Bool
  actionLoadFrom : Bool
  actionSaveAs : Bool
  actionSaveScreenshot : Bool
  actionShowROMInfo : Bool
  actionMute : Bool
  actionStop : Bool
  actionReset : Bool
  actionSoftReset : Bool
  actionLimitFPS : Bool
  actionSlowDown : Bool
  actionSpeedUp : Bool
  actionFullscreen : Bool
  actionCheats : Bool
  actionPause : Bool
  actionPaths : Bool
  actionEmulator : Bool
  actionGraphics : Bool
  actionPlugins : Bool
  deriving DecidableEq, Repr

/-- `MainWindow.on_state_changed` on the 4-tuple `(load, pause, action,
cheats)`: each control's enablement as set by the handler. -/
def on_state_changed (load pause action cheats : Bool) : Enabled :=
  { menuLoad := load
    menuRecent := load
    menuStateSlot := load
    actionLoadState := action
    actionSaveState := action
    actionLoadFrom := action
    actionSaveAs := action
    actionSaveScreenshot := action
    actionShowROMInfo := action
    actionMute := action
    actionStop := action
    actionReset := action
    actionSoftReset := action
    actionLimitFPS := action
    actionSlowDown := action
    actionSpeedUp := action
    actionFullscreen := action
    actionCheats := cheats
    actionPause := pause
    actionPaths := !action
    actionEmulator := !action
    actionGraphics := !action
    actionPlugins := !action }

/-- Event types the filter distinguishes. -/
inductive EventType
  | keyPress
  | keyRelease
  | other
  deriving DecidableEq, Repr

/-- Qt key code `Qt.Key.Key_Return` (0x01000004). -/
def Key_Return : Nat := 16777220

/-- Qt key code `Qt.Key.Key_Enter` (0x01000005). -/
def Key_Enter : Nat := 16777221

/-- `MainWindow.eventFilter` on a key event.  `m` is the `QT2SDL2` key map
(`m64py.frontend.keymap`, abstracted as a partial map from Qt key codes to
SDL scancodes), `altMod` whether the Alt modifier is held.  Returns the
handler's return value (`none` meaning the call falls through to
`super().eventFilter`) together with the effects performed. -/
def eventFilter (m : Nat → Option Nat) (workerState : EmuState)
    (etype : EventType) (key : Nat) (altMod : Bool) : Option Bool × List Effect :=
  match etype with
  | EventType.keyPress =>
    if workerState ≠ EmuState.running ∧ workerState ≠ EmuState.paused then
      (some false, [])
    else if altMod ∧ (key = Key_Enter ∨ key = Key_Return) then
      (some true, [Effect.emit_toggle_fs])
    else
      match m key with
      | some sdl => (some true, [Effect.worker (WorkerCall.send_sdl_keydown sdl)])
      | none => (some true, [])
  | EventType.keyRelease =>
    if workerState ≠ EmuState.running ∧ workerState ≠ EmuState.paused then
      (some false, [])
    else
      match m key with
      | some sdl => (some true, [Effect.worker (WorkerCall.send_sdl_keyup sdl)])
      | none => (some true, [])
  | EventType.other => (none, [])

/-- One save-state slot action as created by `create_state_slots`. -/
structure SlotAction where
  checkable : Bool
  text : String
  shortcut : String
  inGroup : Bool
  checked : Bool
  onTrigger : WorkerCall
  deriving DecidableEq, Repr, Inhabited

/-- The slot action built in the loop body of `create_state_slots` for a
given slot number: checkable, text "Slot %d", shortcut the digit, put into
the exclusive group, and its `triggered` handler calling
`worker.state_set_slot(s)` (the slot is bound per-action via the lambda's
default argument). -/
def mkSlot (slot : Nat) : SlotAction :=
  { checkable := true
    text := "Slot " ++ toString slot
    shortcut := toString slot
    inGroup := true
    checked := false
    onTrigger := WorkerCall.state_set_slot slot }

/-- `MainWindow.create_state_slots`: the ten slot actions for slots 0..9,
with `slots[0].setChecked(True)` applied afterwards. -/
def create_state_slots : List SlotAction :=
  let slots := (List.range 10).map mkSlot
  slots.set 0 { mkSlot 0 with checked := true }

/-- User triggering of slot action `i` on a list of slot actions in one
exclusive `QActionGroup`: action `i` becomes checked, every other group
member is unchecked, and the action's `triggered` handler fires. -/
def trigger_slot (slots : List SlotAction) (i : Nat) : List SlotAction × List Effect :=
  (slots.mapIdx (fun j a => { a with checked := decide (j = i) }),
   [Effect.worker (slots.getD i default).onTrigger])

/-- Effects of `on_actionLoadState_triggered`. -/
def on_actionLoadState_triggered : List Effect :=
  [Effect.worker WorkerCall.state_load]

/-- Effects of `on_actionSaveState_triggered`. -/
def on_actionSaveState_triggered : List Effect :=
  [Effect.worker WorkerCall.state_save]

/-- Effects of `on_actionSaveScreenshot_triggered`. -/
def on_actionSaveScreenshot_triggered : List Effect :=
  [Effect.worker WorkerCall.save_screenshot]

/-- Effects of `on_actionPause_triggered`. -/
def on_actionPause_triggered : List Effect :=
  [Effect.worker WorkerCall.toggle_pause]

/-- Effects of `on_actionMute_triggered`. -/
def on_actionMute_triggered : List Effect :=
  [Effect.worker WorkerCall.toggle_mute]

/-- Effects of `on_actionStop_triggered`. -/
def on_actionStop_triggered : List Effect :=
  [Effect.worker WorkerCall.stop]

/-- Effects of `on_actionReset_triggered` (`worker.reset()`, soft = False). -/
def on_actionReset_triggered : List Effect :=
  [Effect.worker (WorkerCall.reset false)]

/-- Effects of `on_actionSoftReset_triggered` (`worker.reset(True)`). -/
def on_actionSoftReset_triggered : List Effect :=
  [Effect.worker (WorkerCall.reset true)]

/-- Effects of `on_actionLimitFPS_triggered`. -/
def on_actionLimitFPS_triggered : List Effect :=
  [Effect.worker WorkerCall.toggle_speed_limit]

/-- Effects of `on_actionSlowDown_triggered`. -/
def on_actionSlowDown_triggered : List Effect :=
  [Effect.worker WorkerCall.speed_down]

/-- Effects of `on_actionSpeedUp_triggered`. -/
def on_actionSpeedUp_triggered : List Effect :=
  [Effect.worker WorkerCall.speed_up]

/-- Modelled from the spec: the 1X/2X/3X preset window sizes
(`SIZE_1X`, `SIZE_2X`, `SIZE_3X` from `m64py.core.defs`, a module not under
`src/`); the spec's "Window Size radio buttons" are three distinct presets,
taken here at the native N64 resolution multiples. -/
def SIZE_1X : Nat × Nat := (320, 240)

/-- Modelled from the spec: 2X preset window size (see `SIZE_1X`). -/
def SIZE_2X : Nat × Nat := (640, 480)

/-- Modelled from the spec: 3X preset window size (see `SIZE_1X`). -/
def SIZE_3X : Nat × Nat := (960, 720)

/-- Check state of the three window-size actions `action1X`..`action3X`. -/
structure SizeChecks where
  action1X : Bool
  action2X : Bool
  action3X : Bool
  deriving DecidableEq, Repr

/-- `MainWindow.set_sizes` on a content size: if the size is one of the
presets in `self.sizes`, that preset's action is checked (the exclusive
group created by `create_size_actions` unchecks the other two); otherwise
every size action is unchecked. -/
def set_sizes (prev : SizeChecks) (size : Nat × Nat) : SizeChecks :=
  if size = SIZE_1X then
    { action1X := true, action2X := false, action3X := false }
  else if size = SIZE_2X then
    { action1X := false, action2X := true, action3X := false }
  else if size = SIZE_3X then
    { action1X := false, action2X := false, action3X := true }
  else
    { action1X := false, action2X := false, action3X := false }

/-- Number of checked window-size actions. -/
def checkedCount (c : SizeChecks) : Nat :=
  (if c.action1X then 1 else 0) + (if c.action2X then 1 else 0) +
    (if c.action3X then 1 else 0)

/-- A window state with the fullscreen flag clear but the bars hidden
(reachable, e.g., if the window manager drops the fullscreen bit while the
bars are hidden). -/
def hiddenBarsWindowed : MainWindowState :=
  { init_state true with menubarVisible := false, statusbarVisible := false }

theorem pollRuns_le_sub (queries : Nat → EmuState) :
    ∀ n i a, 10 - a ≤ n → a < 10 → pollRuns queries i a ≤ 10 - a := by
  intro n
  induction n with
  | zero => intro i a h ha; omega
  | succ n ih =>
    intro i a h ha
    rw [pollRuns]
    split
    · split
      · have := ih (i + 1) (a + 1) (by omega) (by omega)
        omega
      · omega
    · omega

/-- Claim C1: after a ROM is opened the `wait_for_initialize` poll runs at
most 10 times; each run performs the emulator-state query; the timer is
rescheduled exactly when the queried state is stopped and the (incremented)
attempt counter is still below 10; and once the queried state is no longer
stopped the run triggers the window-size update and toggles the worker's UI
actions (and does not reschedule). -/
theorem wait_for_init_spec :
    (∀ queries : Nat → EmuState, pollRuns queries 0 0 ≤ 10) ∧
    (∀ queries i a, pollRuns queries i a =
        1 + (if (wait_for_init (queries i) a).reschedule
              then pollRuns queries (i + 1) (wait_for_init (queries i) a).attempt
              else 0)) ∧
    (∀ q a, (wait_for_init q a).reschedule =
        (decide (q = EmuState.stopped) && decide ((wait_for_init q a).attempt < 10))) ∧
    (∀ q a, Effect.worker WorkerCall.core_state_query ∈ (wait_for_init q a).effects) ∧
    (∀ q a, (Effect.windowSizeUpdate ∈ (wait_for_init q a).effects ↔
               q ≠ EmuState.stopped) ∧
            (Effect.worker WorkerCall.toggle_actions ∈ (wait_for_init q a).effects ↔
               q ≠ EmuState.stopped)) := by
  refine ⟨?_, ?_, ?_, ?_, ?_⟩
  · intro queries
    have h := pollRuns_le_sub queries 10 0 0 (by omega) (by omega)
    omega
  · intro queries i a
    rw [pollRuns]
    by_cases hq : queries i = EmuState.stopped
    · by_cases h10 : a + 1 < 10 <;> simp [hq, h10, wait_for_init]
    · simp [hq, wait_for_init]
  · intro q a
    cases q <;> simp [wait_for_init]
  · intro q a
    cases q <;> simp [wait_for_init]
  · intro q a
    cases q <;> simp [wait_for_init]

/-- Witness for `wait_for_init_spec` at a concrete non-stopped query result:
the run triggers the window-size update. -/
theorem wait_for_init_spec_witness :
    Effect.windowSizeUpdate ∈ (wait_for_init EmuState.running 3).effects :=
  ((wait_for_init_spec.2.2.2.2 EmuState.running 3).1).mpr (by decide)

/-- Claim C8: the initialization-attempt counter starts at 0 in the
constructor; `on_rom_closed` clears `_initialized` but leaves the counter
untouched; a poll run never decreases the counter (it leaves it unchanged or
increments it); and once the counter has reached 10, a freshly scheduled
poll runs exactly once, whatever the queried states. -/
theorem attempt_counter_cumulative :
    (∀ v, (init_state v).attemptCount = 0 ∧ (init_state v).isInit = false) ∧
    (∀ w, (on_rom_closed w).attemptCount = w.attemptCount ∧
          (on_rom_closed w).isInit = false) ∧
    (∀ q a, (wait_for_init q a).attempt = a ∨ (wait_for_init q a).attempt = a + 1) ∧
    (∀ q a, a ≤ (wait_for_init q a).attempt) ∧
    (∀ queries i a, pollRuns queries i (a + 10) = 1) := by
  refine ⟨?_, ?_, ?_, ?_, ?_⟩
  · intro v
    simp [init_state]
  · intro w
    unfold on_rom_closed
    split
    · unfold on_toggle_fs
      split <;> simp
    · simp
  · intro q a
    cases q <;> simp [wait_for_init]
  · intro q a
    cases q <;> simp [wait_for_init]
  · intro queries i a
    rw [pollRuns]
    split
    · rw [dif_neg (by omega)]
    · rfl

/-- Claim C9: after `on_rom_closed`, whatever the prior window state, the
central stack shows index 0, Mute and Pause are unchecked, LimitFPS is
checked, the caption is "M64Py", the status bar reads "ROM closed.", the
cheats dialog is gone and `_initialized` is false. -/
theorem on_rom_closed_idle (w : MainWindowState) :
    (on_rom_closed w).stackIndex = 0 ∧
    (on_rom_closed w).muteChecked = false ∧
    (on_rom_closed w).pauseChecked = false ∧
    (on_rom_closed w).limitFPSChecked = true ∧
    (on_rom_closed w).caption = "M64Py" ∧
    (on_rom_closed w).status = "ROM closed." ∧
    (on_rom_closed w).cheatsPresent = false ∧
    (on_rom_closed w).isInit = false := by
  unfold on_rom_closed
  split <;> simp

/-- Claim C3: when the filepath does not name an existing file,
`on_file_open` shows only the "File ... not found." info dialog and makes
no worker call at all, for any filename argument and any worker state. -/
theorem on_file_open_missing_file (fp : String) (fn : Option String) (ws : EmuState) :
    on_file_open false fp fn ws =
      [Effect.infoDialog ("File " ++ fp ++ " not found.")] ∧
    ∀ c : WorkerCall, Effect.worker c ∉ on_file_open false fp fn ws := by
  refine ⟨by simp [on_file_open], ?_⟩
  intro c
  simp [on_file_open]

/-- Witness for `on_file_open_missing_file` at a concrete missing path: the
dialog is the only effect and, in particular, the worker is not started. -/
theorem on_file_open_missing_file_witness :
    on_file_open false "rom.n64" none EmuState.stopped =
      [Effect.infoDialog ("File " ++ "rom.n64" ++ " not found.")] ∧
    Effect.worker WorkerCall.start ∉ on_file_open false "rom.n64" none EmuState.stopped :=
  ⟨(on_file_open_missing_file "rom.n64" none EmuState.stopped).1,
   (on_file_open_missing_file "rom.n64" none EmuState.stopped).2 WorkerCall.start⟩

/-- Claim C4: `on_state_changed` sets each control's enablement purely as a
function of the `(load, pause, action, cheats)` tuple: the Load, Recent and
StateSlot menus follow `load`; Pause follows `pause`; the fourteen action
controls follow `action`; Cheats follows `cheats`; and the four settings
actions follow the negation of `action`. -/
theorem on_state_changed_spec (load pause action cheats : Bool) :
    (on_state_changed load pause action cheats).menuLoad = load ∧
    (on_state_changed load pause action cheats).menuRecent = load ∧
    (on_state_changed load pause action cheats).menuStateSlot = load ∧
    (on_state_changed load pause action cheats).actionLoadState = action ∧
    (on_state_changed load pause action cheats).actionSaveState = action ∧
    (on_state_changed load pause action cheats).actionLoadFrom = action ∧
    (on_state_changed load pause action cheats).actionSaveAs = action ∧
    (on_state_changed load pause action cheats).actionSaveScreenshot = action ∧
    (on_state_changed load pause action cheats).actionShowROMInfo = action ∧
    (on_state_changed load pause action cheats).actionMute = action ∧
    (on_state_changed load pause action cheats).actionStop = action ∧
    (on_state_changed load pause action cheats).actionReset = action ∧
    (on_state_changed load pause action cheats).actionSoftReset = action ∧
    (on_state_changed load pause action cheats).actionLimitFPS = action ∧
    (on_state_changed load pause action cheats).actionSlowDown = action ∧
    (on_state_changed load pause action cheats).actionSpeedUp = action ∧
    (on_state_changed load pause action cheats).actionFullscreen = action ∧
    (on_state_changed load pause action cheats).actionCheats = cheats ∧
    (on_state_changed load pause action cheats).actionPause = pause ∧
    (on_state_changed load pause action cheats).actionPaths = !action ∧
    (on_state_changed load pause action cheats).actionEmulator = !action ∧
    (on_state_changed load pause action cheats).actionGraphics = !action ∧
    (on_state_changed load pause action cheats).actionPlugins = !action :=
  ⟨rfl, rfl, rfl, rfl, rfl, rfl, rfl, rfl, rfl, rfl, rfl, rfl, rfl, rfl, rfl,
   rfl, rfl, rfl, rfl, rfl, rfl, rfl, rfl⟩

/-- Claim C6: each of the eleven listed menu triggers performs exactly the
one corresponding worker call and nothing else. -/
theorem menu_triggers_passthrough :
    on_actionLoadState_triggered = [Effect.worker WorkerCall.state_load] ∧
    on_actionSaveState_triggered = [Effect.worker WorkerCall.state_save] ∧
    on_actionSaveScreenshot_triggered = [Effect.worker WorkerCall.save_screenshot] ∧
    on_actionPause_triggered = [Effect.worker WorkerCall.toggle_pause] ∧
    on_actionMute_triggered = [Effect.worker WorkerCall.toggle_mute] ∧
    on_actionStop_triggered = [Effect.worker WorkerCall.stop] ∧
    on_actionReset_triggered = [Effect.worker (WorkerCall.reset false)] ∧
    on_actionSoftReset_triggered = [Effect.worker (WorkerCall.reset true)] ∧
    on_actionLimitFPS_triggered = [Effect.worker WorkerCall.toggle_speed_limit] ∧
    on_actionSlowDown_triggered = [Effect.worker WorkerCall.speed_down] ∧
    on_actionSpeedUp_triggered = [Effect.worker WorkerCall.speed_up] :=
  ⟨rfl, rfl, rfl, rfl, rfl, rfl, rfl, rfl, rfl, rfl, rfl⟩

/-- Claim C5: the event filter forwards no key event to the worker unless
the worker state is running or paused (in the stopped state it returns
`False` with no effect); in the running or paused state a key found in the
`QT2SDL2` map is forwarded as key-down on press and key-up on release and
the event is consumed, except that an Alt+Enter / Alt+Return press emits
the fullscreen-toggle signal instead of forwarding. -/
theorem eventFilter_spec :
    (∀ m k alt, eventFilter m EmuState.stopped EventType.keyPress k alt =
                  (some false, []) ∧
                eventFilter m EmuState.stopped EventType.keyRelease k alt =
                  (some false, [])) ∧
    (∀ (m : Nat → Option Nat) ws k alt sdl,
        (ws = EmuState.running ∨ ws = EmuState.paused) → m k = some sdl →
        (¬(alt = true ∧ (k = Key_Enter ∨ k = Key_Return)) →
           eventFilter m ws EventType.keyPress k alt =
             (some true, [Effect.worker (WorkerCall.send_sdl_keydown sdl)])) ∧
        eventFilter m ws EventType.keyRelease k alt =
          (some true, [Effect.worker (WorkerCall.send_sdl_keyup sdl)])) ∧
    (∀ (m : Nat → Option Nat) ws k alt,
        (ws = EmuState.running ∨ ws = EmuState.paused) → alt = true →
        (k = Key_Enter ∨ k = Key_Return) →
        eventFilter m ws EventType.keyPress k alt =
          (some true, [Effect.emit_toggle_fs])) := by
  refine ⟨?_, ?_, ?_⟩
  · intro m k alt
    constructor <;> simp [eventFilter]
  · intro m ws k alt sdl hws hm
    rcases hws with h | h <;> subst h <;>
      exact ⟨fun halt => by simp [eventFilter, hm, halt], by simp [eventFilter, hm]⟩
  · intro m ws k alt hws halt hk
    rcases hws with h | h <;> subst h <;> subst halt <;> simp [eventFilter, hk]

/-- Witness for `eventFilter_spec`: with the map sending every key to
scancode 7, a press of key 5 without Alt while running is forwarded as
key-down 7 and consumed. -/
theorem eventFilter_spec_witness :
    eventFilter (fun _ => some 7) EmuState.running EventType.keyPress 5 false =
      (some true, [Effect.worker (WorkerCall.send_sdl_keydown 7)]) :=
  (eventFilter_spec.2.1 (fun _ => some 7) EmuState.running 5 false 7
    (Or.inl rfl) rfl).1 (by simp)

/-- Claim C7 (counterexample): two consecutive `on_toggle_fs` calls do not
restore the menubar visibility from every state: starting windowed with the
bars hidden, the double toggle leaves the menubar shown. -/
theorem on_toggle_fs_not_involution :
    (on_toggle_fs (on_toggle_fs hiddenBarsWindowed)).menubarVisible ≠
      hiddenBarsWindowed.menubarVisible := by
  simp [on_toggle_fs, hiddenBarsWindowed, init_state]

/-- Claim C7 (amended): each `on_toggle_fs` call flips the fullscreen bit,
hides the bars and blanks the cursor exactly when entering fullscreen and
shows them with the arrow cursor when leaving; two consecutive calls always
restore the fullscreen flag, and they restore the bar visibility whenever
the bars were visible exactly when the window was not fullscreen
beforehand (the configuration the handler itself maintains). -/
theorem on_toggle_fs_near_involution :
    (∀ w, (on_toggle_fs w).fullscreen = !w.fullscreen) ∧
    (∀ w, (on_toggle_fs (on_toggle_fs w)).fullscreen = w.fullscreen) ∧
    (∀ w, w.fullscreen = false →
        (on_toggle_fs w).menubarVisible = false ∧
        (on_toggle_fs w).statusbarVisible = false ∧
        (on_toggle_fs w).cursor = CursorShape.blank) ∧
    (∀ w, w.fullscreen = true →
        (on_toggle_fs w).menubarVisible = true ∧
        (on_toggle_fs w).statusbarVisible = true ∧
        (on_toggle_fs w).cursor = CursorShape.arrow) ∧
    (∀ w, w.menubarVisible = !w.fullscreen → w.statusbarVisible = !w.fullscreen →
        (on_toggle_fs (on_toggle_fs w)).menubarVisible = w.menubarVisible ∧
        (on_toggle_fs (on_toggle_fs w)).statusbarVisible = w.statusbarVisible) := by
  refine ⟨?_, ?_, ?_, ?_, ?_⟩
  · intro w
    unfold on_toggle_fs
    split <;> rfl
  · intro w
    unfold on_toggle_fs
    rcases hw : w.fullscreen <;> simp [hw]
  · intro w hw
    simp [on_toggle_fs, hw]
  · intro w hw
    simp [on_toggle_fs, hw]
  · intro w hm hs
    rcases hw : w.fullscreen <;> simp_all [on_toggle_fs]

/-- Witness for `on_toggle_fs_near_involution`: from the freshly constructed
windowed state (bars visible, not fullscreen) the double toggle restores the
bar visibility. -/
theorem on_toggle_fs_near_involution_witness :
    (on_toggle_fs (on_toggle_fs (init_state true))).menubarVisible =
        (init_state true).menubarVisible ∧
    (on_toggle_fs (on_toggle_fs (init_state true))).statusbarVisible =
        (init_state true).statusbarVisible :=
  on_toggle_fs_near_involution.2.2.2.2 (init_state true) (by decide) (by decide)

/-- Claim C2: `create_state_slots` creates exactly 10 checkable slot actions
for slots 0 through 9, each in the exclusive group, with slot `s` triggering
`worker.state_set_slot(s)`; slot 0 is checked initially, exactly one slot is
checked, and after any slot is triggered exactly one slot is checked and the
one worker call made is `state_set_slot` for that slot. -/
theorem create_state_slots_spec :
    create_state_slots.length = 10 ∧
    (∀ s : Fin 10,
        (create_state_slots.getD s.val default).checkable = true ∧
        (create_state_slots.getD s.val default).inGroup = true ∧
        (create_state_slots.getD s.val default).text = "Slot " ++ toString s.val ∧
        (create_state_slots.getD s.val default).onTrigger =
          WorkerCall.state_set_slot s.val ∧
        (create_state_slots.getD s.val default).checked = decide (s.val = 0)) ∧
    (create_state_slots.filter (fun a => a.checked)).length = 1 ∧
    (∀ s : Fin 10,
        ((trigger_slot create_state_slots s.val).1.filter
            (fun a => a.checked)).length = 1 ∧
        (trigger_slot create_state_slots s.val).2 =
          [Effect.worker (WorkerCall.state_set_slot s.val)]) := by
  decide

/-- Claim C10: `set_sizes` checks the window-size action for the given
content size exactly when the size is one of the three presets, unchecks
all three when the size matches no preset, and so leaves at most one of
the three actions checked, whatever their previous check state. -/
theorem set_sizes_spec (prev : SizeChecks) (size : Nat × Nat) :
    (set_sizes prev size).action1X = decide (size = SIZE_1X) ∧
    (set_sizes prev size).action2X = decide (size = SIZE_2X) ∧
    (set_sizes prev size).action3X = decide (size = SIZE_3X) ∧
    checkedCount (set_sizes prev size) ≤ 1 := by
  unfold set_sizes
  split_ifs with h1 h2 h3 <;>
    simp_all [SIZE_1X, SIZE_2X, SIZE_3X, checkedCount]

end M64Py
